import Mathlib

/-!
Shallow embedding of the orange todo app server (`src/main.py`): the
`TodoStore` task store, its durable-state serialization and loading, the
tool-dispatch branches of `_call_tool_request`, and the `AssetRegistry`
manifest-resolution chain.  Python dicts appearing in JSON data are modelled
as association lists of string keys, timestamps are threaded in as explicit
string parameters (the code obtains them from `datetime.utcnow()`), and the
random task-id token from `uuid.uuid4().hex[:8]` is an explicit parameter.
-/

namespace OrangeTodo

/-- JSON values as handled by the Python code.  Dicts are association lists
(JSON parsing yields unique keys; lookup takes the first match).  JSON
numbers are modelled as integers only: no code path here inspects
fractional values. -/
inductive JVal where
  | jnull : JVal
  | jbool : Bool → JVal
  | jint : Int → JVal
  | jstr : String → JVal
  | jlist : List JVal → JVal
  | jdict : List (String × JVal) → JVal

/-- Python exception classes raised by the modelled code.  Messages are not
modelled, only the class. -/
inductive PyExc where
  | typeError
  | valueError
  | attributeError
  | fileNotFoundError
  | jsonDecodeError
  | osError
deriving DecidableEq, Repr

/-- Python `dict.get(key)` on an association list: first binding wins. -/
def dictGet : List (String × JVal) → String → Option JVal
  | [], _ => none
  | (k, v) :: rest, key => if k == key then some v else dictGet rest key

/-- Python `key in dict`. -/
def hasKey (d : List (String × JVal)) (k : String) : Bool :=
  d.any (fun kv => kv.1 == k)

/-- Python truthiness of a JSON value. -/
def pyTruthy : JVal → Bool
  | .jnull => false
  | .jbool b => b
  | .jint n => n != 0
  | .jstr s => s != ""
  | .jlist xs => !xs.isEmpty
  | .jdict d => !d.isEmpty

/-- Python `str()` of a JSON value.  Lists and dicts render via `repr`; the
exact text is never inspected by the code (only truthiness gates its use),
so their rendering is abbreviated here. -/
def pyStr : JVal → String
  | .jnull => "None"
  | .jbool true => "True"
  | .jbool false => "False"
  | .jint n => toString n
  | .jstr s => s
  | .jlist _ => "<list>"
  | .jdict _ => "<dict>"

/-- ASCII whitespace stripped by Python `str.strip()`.  (Python also strips
further Unicode space characters; none occur in the data considered here.) -/
def pyWhitespace (c : Char) : Bool :=
  c == ' ' || c == '\t' || c == '\n' || c == '\r' || c == '\x0b' || c == '\x0c'

/-- Python `str.strip()`. -/
def pyStrip (s : String) : String :=
  ((s.toList.dropWhile pyWhitespace).reverse.dropWhile pyWhitespace).reverse.asString

/-- Digits of an optionally signed decimal literal, as accepted by Python
`int(str)` (underscore separators are not modelled; none occur here). -/
def parseSignedDigits (cs : List Char) : Option Int :=
  match cs with
  | '-' :: rest =>
    if rest ≠ [] ∧ rest.all Char.isDigit
    then some (-(rest.foldl (fun acc c => acc * 10 + (c.toNat - 48)) 0 : Nat))
    else none
  | '+' :: rest =>
    if rest ≠ [] ∧ rest.all Char.isDigit
    then some ((rest.foldl (fun acc c => acc * 10 + (c.toNat - 48)) 0 : Nat))
    else none
  | _ =>
    if cs ≠ [] ∧ cs.all Char.isDigit
    then some ((cs.foldl (fun acc c => acc * 10 + (c.toNat - 48)) 0 : Nat))
    else none

/-- Python `int()` applied to a JSON value: identity on ints, bools map to
0/1, strings parse as signed decimals (`ValueError` otherwise), everything
else is a `TypeError`. -/
def pyInt : JVal → Except PyExc Int
  | .jint n => .ok n
  | .jbool b => .ok (if b then 1 else 0)
  | .jstr s =>
    match parseSignedDigits (pyStrip s).toList with
    | some n => .ok n
    | none => .error .valueError
  | _ => .error .typeError

/-- `int(raw.get("completedCount", 0) or 0)` from `_load_state`: a missing
or falsy value yields 0, otherwise the value passes through `int()`. -/
def pyIntOr0 (o : Option JVal) : Except PyExc Int :=
  let x := o.getD (.jint 0)
  pyInt (if pyTruthy x then x else .jint 0)

/-- The `TodoTask` dataclass (`src/main.py` lines 40-47).  `created_at`
defaults to the construction-time clock, threaded in explicitly. -/
structure TodoTask where
  id : String
  title : String
  created_at : String
  done : Bool
deriving DecidableEq, Repr

/-- `dataclasses.asdict` on a `TodoTask`, in field order. -/
def taskToJ (t : TodoTask) : JVal :=
  .jdict [("id", .jstr t.id), ("title", .jstr t.title),
          ("created_at", .jstr t.created_at), ("done", .jbool t.done)]

/-- Keyword names accepted by the `TodoTask` constructor. -/
def allowedTaskKey (k : String) : Bool :=
  k == "id" || k == "title" || k == "created_at" || k == "done"

/-- `TodoTask(**item)` in `_load_state`: `none` models the `TypeError`
branch (non-dict item, unknown or missing keyword).  Field values are
required to carry their declared shapes; the Python dataclass would also
accept ill-typed values, which never occur in files this program writes. -/
def taskOfJ (now : String) : JVal → Option TodoTask
  | .jdict d =>
    if d.all (fun kv => allowedTaskKey kv.1) then
      match dictGet d "id", dictGet d "title" with
      | some (.jstr i), some (.jstr ttl) =>
        let ca : Option String :=
          match dictGet d "created_at" with
          | none => some now
          | some (.jstr c) => some c
          | some _ => none
        let dn : Option Bool :=
          match dictGet d "done" with
          | none => some false
          | some (.jbool b) => some b
          | some _ => none
        match ca, dn with
        | some c, some b => some ⟨i, ttl, c, b⟩
        | _, _ => none
      | _, _ => none
    else none
  | _ => none

/-- The in-memory state of `TodoStore`: the `OrderedDict` of active tasks
(key is the task id), the completed counter, the completion log (a list of
JSON dicts, as in the Python attribute `_completed_log`), and the last
completion timestamp. -/
structure StoreState where
  tasks : List (String × TodoTask)
  completed_total : Int
  completed_log : List (List (String × JVal))
  last_completed_at : Option String

/-- `OrderedDict` assignment `m[k] = v`: replace in place if the key is
present, append otherwise. -/
def ordInsert (m : List (String × TodoTask)) (k : String) (v : TodoTask) :
    List (String × TodoTask) :=
  if m.any (fun p => p.1 == k) then m.map (fun p => if p.1 == k then (k, v) else p)
  else m ++ [(k, v)]

/-- `OrderedDict((task.id, task) for task in tasks)`. -/
def ordFromTasks (ts : List TodoTask) : List (String × TodoTask) :=
  ts.foldl (fun m t => ordInsert m t.id t) []

/-- Python `xs[-n:]`. -/
def lastN (n : Nat) (xs : List α) : List α :=
  xs.drop (xs.length - n)

/-- `TodoStore._initial_tasks` (lines 63-68); `now` is the seeding-time
clock filled into the `created_at` default. -/
def initialTasks (now : String) : List TodoTask :=
  [⟨"welcome", "Welcome to your orange todo list", now, false⟩,
   ⟨"explore", "Add a new task with the add task tool", now, false⟩,
   ⟨"clean-up", "Remove a task using the remove task tool", now, false⟩]

/-- The store state after a fresh start with no (or unreadable) state file:
`_load_state` with an empty `raw` dict seeds the three default tasks. -/
def initialState (now : String) : StoreState :=
  { tasks := ordFromTasks (initialTasks now),
    completed_total := 0,
    completed_log := [],
    last_completed_at := none }

/-- Task extraction of `_load_state` (lines 79-90): the `tasks` entry must
be a list; entries that fail the `TodoTask(**item)` construction are
skipped. -/
def loadTasks (now : String) (raw : List (String × JVal)) : List TodoTask :=
  match dictGet raw "tasks" with
  | some (.jlist items) => items.filterMap (taskOfJ now)
  | _ => []

/-- The membership filter of the completion-log list comprehension in
`_load_state` (lines 98-104): keep dict entries carrying `title` and
`completed_at` keys. -/
def keepEntry : JVal → Option (List (String × JVal))
  | .jdict d => if hasKey d "title" && hasKey d "completed_at" then some d else none
  | _ => none

/-- Completion-log extraction of `_load_state` (lines 96-104): the kept
entries, truncated to the last 50. -/
def loadLog (raw : List (String × JVal)) : List (List (String × JVal)) :=
  match dictGet raw "completedTasks" with
  | some (.jlist items) => lastN 50 (items.filterMap keepEntry)
  | _ => []

/-- `lastCompletedAt` extraction of `_load_state` (lines 105-106):
`str(last_completed) if last_completed else None`. -/
def loadLast (raw : List (String × JVal)) : Option String :=
  match dictGet raw "lastCompletedAt" with
  | none => none
  | some v => if pyTruthy v then some (pyStr v) else none

/-- `TodoStore._load_state` (lines 70-109) applied to an already-parsed
state-file object `raw`; a missing or unparseable file corresponds to
`raw = []`.  The `Except` models the uncaught `ValueError`/`TypeError`
that `int(...)` can raise on a malformed `completedCount`. -/
def loadState (now : String) (raw : List (String × JVal)) : Except PyExc StoreState :=
  let tasks0 := loadTasks now raw
  let tmap := if tasks0.isEmpty then ordFromTasks (initialTasks now) else ordFromTasks tasks0
  match pyIntOr0 (dictGet raw "completedCount") with
  | .error e => .error e
  | .ok c =>
    .ok { tasks := tmap, completed_total := c,
          completed_log := loadLog raw, last_completed_at := loadLast raw }

/-- `TodoStore._serialize_state` (lines 111-117). -/
def serializeState (s : StoreState) : List (String × JVal) :=
  [("tasks", .jlist (s.tasks.map (fun p => taskToJ p.2))),
   ("completedCount", .jint s.completed_total),
   ("lastCompletedAt", match s.last_completed_at with | some x => .jstr x | none => .jnull),
   ("completedTasks", .jlist (s.completed_log.map .jdict))]

/-- The stats dict built by `TodoStore._stats_unlocked` (lines 136-143). -/
structure TodoStats where
  total : Int
  active : Nat
  completed : Int
  lastCompletedAt : Option String

/-- `TodoStore._stats_unlocked` (lines 136-143): `active` is the size of
the ordered map, `total` is `active + self._completed_total`. -/
def statsOf (s : StoreState) : TodoStats :=
  { total := (s.tasks.length : Int) + s.completed_total,
    active := s.tasks.length,
    completed := s.completed_total,
    lastCompletedAt := s.last_completed_at }

/-- The stats dict as it appears in JSON responses. -/
def statsToJ (st : TodoStats) : JVal :=
  .jdict [("total", .jint st.total), ("active", .jint st.active),
          ("completed", .jint st.completed),
          ("lastCompletedAt", match st.lastCompletedAt with | some x => .jstr x | none => .jnull)]

/-- `TodoStore.snapshot` (lines 145-151) as structured content. -/
def snapshotJ (s : StoreState) : List (String × JVal) :=
  [("tasks", .jlist (s.tasks.map (fun p => taskToJ p.2))),
   ("stats", statsToJ (statsOf s)),
   ("completedTasks", .jlist (s.completed_log.map .jdict))]

/-- `TodoStore.add_task` (lines 153-158): strips the title, builds the task
with the generated id `genId` (`uuid.uuid4().hex[:8]` in the code) and
clock `now`, and assigns it into the ordered map. -/
def addTask (genId now title : String) (s : StoreState) : TodoTask × StoreState :=
  let newTask : TodoTask := ⟨genId, pyStrip title, now, false⟩
  (newTask, { s with tasks := ordInsert s.tasks genId newTask })

/-- The completion record appended by `remove_task` (lines 168-172). -/
def mkRecord (t : TodoTask) (now : String) : List (String × JVal) :=
  [("id", .jstr t.id), ("title", .jstr t.title), ("completed_at", .jstr now)]

/-- `TodoStore.remove_task` (lines 160-177): pop by id (`none` when
absent), bump the completed counter, set the last-completed clock, append
a completion record and truncate the log to the last 50 when it exceeds
50 entries. -/
def removeTask (now tid : String) (s : StoreState) : Option TodoTask × StoreState :=
  match s.tasks.find? (fun p => p.1 == tid) with
  | none => (none, s)
  | some e =>
    let log1 := s.completed_log ++ [mkRecord e.2 now]
    (some e.2,
     { tasks := s.tasks.eraseP (fun p => p.1 == tid),
       completed_total := s.completed_total + 1,
       completed_log := if log1.length > 50 then lastN 50 log1 else log1,
       last_completed_at := some now })

/-- A tool response of `_call_tool_request`: the text content, the
`isError` flag, and the optional `structuredContent` dict.  The widget
metadata attached under `_meta` concerns only the asset registry (modelled
separately) and is not constrained by any store-level claim. -/
structure ToolResult where
  text : String
  isError : Bool
  structured : Option (List (String × JVal))

/-- The plural suffix of the task-count messages: the letter s exactly
when the count differs from 1. -/
def pluralS (active : Nat) : String :=
  if active != 1 then "s" else ""

/-- The confirmation message of the add-task branch (lines 513-517). -/
def addMessage (t : TodoTask) (active : Nat) : String :=
  "Added task “" ++ t.title ++ "” (id: " ++ t.id ++ "). You now have " ++
    toString active ++ " active task" ++ pluralS active ++ "."

/-- The completion message of the remove-task branch (lines 573-576). -/
def removeMessage (t : TodoTask) (remaining : Nat) (completed : Int) : String :=
  "Completed task “" ++ t.title ++ "”. " ++ toString remaining ++
    " active remaining, " ++ toString completed ++ " completed overall."

/-- The add-task branch of `_call_tool_request` (lines 495-529).
`titleArg` is the `title` argument (`none` when absent); a non-string
argument never trims to empty under `str()`, so only string and missing
arguments are modelled.  Returns the response together with the store
state after the call. -/
def addToolCall (genId now : String) (titleArg : Option String) (s : StoreState) :
    ToolResult × StoreState :=
  let title := pyStrip (titleArg.getD "")
  if title == "" then
    ({ text := "Please provide a task title.", isError := true, structured := none }, s)
  else
    let r := addTask genId now title s
    ({ text := addMessage r.1 (statsOf r.2).active, isError := false,
       structured := some (snapshotJ r.2 ++ [("added", taskToJ r.1)]) }, r.2)

/-- The remove-task branch of `_call_tool_request` (lines 531-588).
`idArg` is the `id` argument (`none` when absent). -/
def removeToolCall (now : String) (idArg : Option String) (s : StoreState) :
    ToolResult × StoreState :=
  let tid := pyStrip (idArg.getD "")
  if tid == "" then
    ({ text := "Please provide the id of the task to remove.", isError := true,
       structured := none }, s)
  else
    match removeTask now tid s with
    | (none, s1) =>
      ({ text := "No task with id “" ++ tid ++ "” was found.", isError := true,
         structured := some (snapshotJ s1) }, s1)
    | (some t, s1) =>
      ({ text := removeMessage t (statsOf s1).active (statsOf s1).completed,
         isError := false,
         structured := some (snapshotJ s1 ++ [("removed", taskToJ t)]) }, s1)

/-- The immutable widget descriptor dataclass `TodoWidget` (lines 30-37). -/
structure TodoWidget where
  identifier : String
  title : String
  template_uri : String
  invoking : String
  invoked : String
  html : String
deriving DecidableEq, Repr

/-- The placeholder descriptor installed by `AssetRegistry.__init__`
(lines 273-281). -/
def placeholderWidget : TodoWidget :=
  { identifier := "todo-dashboard",
    title := "Todo Dashboard",
    template_uri := "ui://widget/todo-dashboard-initial.html",
    invoking := "Loading your tasks",
    invoked := "Loading your tasks...",
    html := "<div id=\"todo-root\"></div>" }

/-- The result of `_derive_asset_paths`. -/
structure AssetPaths where
  css_rel : String
  js_rel : String
  version : String
deriving DecidableEq, Repr

/-- Python `str.startswith(pre)`. -/
def pyStartsWith (s pre : String) : Bool :=
  pre.toList.isPrefixOf s.toList

/-- Python `str.endswith(suf)`. -/
def pyEndsWith (s suf : String) : Bool :=
  suf.toList.isSuffixOf s.toList

/-- Python `str.split(sep)` for a one-character separator, over character
lists. -/
def splitChar (sep : Char) : List Char → List (List Char)
  | [] => [[]]
  | c :: rest =>
    match splitChar sep rest with
    | [] => [[]]
    | g :: gs => if c == sep then [] :: g :: gs else (c :: g) :: gs

/-- Python iteration over a JSON value as it occurs in
`_derive_asset_paths`: lists yield their items, strings their characters,
anything else raises `TypeError`. -/
def pyIter : JVal → Except PyExc (List JVal)
  | .jlist xs => .ok xs
  | .jstr s => .ok (s.toList.map (fun c => .jstr (String.singleton c)))
  | _ => .error .typeError

/-- `next((item for item in entrypoints if item.endswith(suf)), None)`:
scan for the first string ending in `suf`; a non-string item reached
before a match raises `AttributeError` (no `.endswith` on it). -/
def firstEndsWith : List JVal → String → Except PyExc (Option String)
  | [], _ => .ok none
  | .jstr s :: rest, suf =>
    if pyEndsWith s suf then .ok (some s) else firstEndsWith rest suf
  | _ :: _, _ => .error .attributeError

/-- Python `str.lstrip("/")`. -/
def lstripSlash (s : String) : String :=
  (s.toList.dropWhile (fun c => c == '/')).asString

/-- `pathlib.Path(p).name`: the final path component.  ("." and ".."
components are not special-cased; no manifest path here contains them.) -/
def pathName (p : String) : String :=
  (((splitChar '/' p.toList).filter (fun seg => !seg.isEmpty)).getLastD []).asString

/-- `pathlib.Path(p).stem`: the name stripped of its suffix, where the
suffix starts at the last dot provided that dot is neither the first nor
the last character of the name. -/
def pathStem (p : String) : String :=
  let name := pathName p
  let cs := name.toList
  let dots := (List.range cs.length).filter (fun i => cs.getD i ' ' == '.')
  match dots.getLast? with
  | some i => if 0 < i ∧ i + 1 < cs.length then (cs.take i).asString else name
  | none => name

/-- `_derive_asset_paths` (lines 197-218): pick the first `.css` and first
`.js` entrypoints, raise `ValueError` when either is absent, strip leading
slashes and derive the version token from the JS filename. -/
def deriveAssetPaths (manifest : List (String × JVal)) : Except PyExc AssetPaths :=
  let entrypoints := (dictGet manifest "entrypoints").getD (.jlist [])
  match pyIter entrypoints with
  | .error e => .error e
  | .ok items =>
    match firstEndsWith items ".css" with
    | .error e => .error e
    | .ok cssEntry =>
      match firstEndsWith items ".js" with
      | .error e => .error e
      | .ok jsEntry =>
        match cssEntry, jsEntry with
        | some css, some js =>
          let cssRel := lstripSlash css
          let jsRel := lstripSlash js
          let version := ((splitChar '.' (pathStem jsRel).toList).getLastD []).asString
          .ok { css_rel := cssRel, js_rel := jsRel, version := version }
        | _, _ => .error .valueError

/-- `AssetRegistry._build_snapshot` (lines 283-305). -/
def buildSnapshot (serverUrl : String) (p : AssetPaths) : TodoWidget :=
  { identifier := "todo-dashboard",
    title := "Todo Dashboard",
    template_uri := "ui://widget/todo-dashboard-" ++ p.version ++ ".html",
    invoking := "Checking your tasks",
    invoked := "Updating your tasks...",
    html := "<div id=\"todo-root\"></div>\n" ++
      "<link rel=\"stylesheet\" href=\"" ++ serverUrl ++ "/" ++ p.css_rel ++ "\">\n" ++
      "<script type=\"module\" src=\"" ++ serverUrl ++ "/" ++ p.js_rel ++ "\"></script>" }

/-- The fallback tail of `AssetRegistry.refresh` (lines 319-325): read and
derive from the local manifest inside `try/except Exception`, keeping the
cached descriptor on any failure.  `localRead` is the outcome of
`_read_local_manifest` (which can raise `FileNotFoundError` or a JSON
decode error). -/
def localFallback (serverUrl : String) (localRead : Except PyExc (List (String × JVal)))
    (cached : TodoWidget) : Except PyExc TodoWidget :=
  match localRead with
  | .error _ => .ok cached
  | .ok lm =>
    match deriveAssetPaths lm with
    | .ok p => .ok (buildSnapshot serverUrl p)
    | .error _ => .ok cached

/-- `AssetRegistry.refresh` (lines 309-325).  `fetched` is the result of
`_fetch_remote_manifest`, which swallows every exception and returns
`None` on any failure (a remote JSON document that is not an object would
also raise inside the remote branch; the dict case shown here is enough
for the claims).  A `.ok` result is also the new cached descriptor; a
`.error` result is an exception propagating to the caller, leaving the
cache unchanged. -/
def refresh (useDeployed : Bool) (serverUrl : String)
    (fetched : Option (List (String × JVal)))
    (localRead : Except PyExc (List (String × JVal)))
    (cached : TodoWidget) : Except PyExc TodoWidget :=
  if useDeployed && pyStartsWith serverUrl "http" then
    match fetched with
    | some m =>
      if m.isEmpty then localFallback serverUrl localRead cached
      else
        match deriveAssetPaths m with
        | .ok p => .ok (buildSnapshot serverUrl p)
        | .error e => .error e
    | none => localFallback serverUrl localRead cached
  else localFallback serverUrl localRead cached

/-- Store states reachable in the program's own lifecycle: a fresh start
(no state file), adding and removing tasks, and restarting from the state
file the program itself persisted (`_persist_unlocked` writes
`_serialize_state` after every mutation).  The clock strings produced by
`datetime.utcnow().isoformat() + "Z"` are never empty, hence the `hne`
hypothesis on removal. -/
inductive Reachable : StoreState → Prop where
  | init (now : String) : Reachable (initialState now)
  | add (genId now title : String) {s : StoreState} :
      Reachable s → Reachable (addTask genId now title s).2
  | remove (tid now : String) {s : StoreState} (hne : now ≠ "") :
      Reachable s → Reachable (removeTask now tid s).2
  | reload (now : String) {s s' : StoreState} :
      Reachable s → loadState now (serializeState s) = .ok s' → Reachable s'

/-- Structural well-formedness of a store state: map keys are the task
ids and are duplicate-free, the completion log is capped at 50 and each
entry carries `title` and `completed_at` keys, the last-completed
timestamp is never the empty string, and active tasks are not done. -/
def WF (s : StoreState) : Prop :=
  (∀ p ∈ s.tasks, p.1 = p.2.id ∧ p.2.done = false) ∧
  (s.tasks.map Prod.fst).Nodup ∧
  s.completed_log.length ≤ 50 ∧
  (∀ e ∈ s.completed_log, hasKey e "title" = true ∧ hasKey e "completed_at" = true) ∧
  s.last_completed_at ≠ some ""

/-- The reachable store state obtained from a fresh start by removing all
three seeded tasks: its active map is empty. -/
def emptiedState : StoreState :=
  (removeTask "T3" "clean-up"
    ((removeTask "T2" "explore"
      ((removeTask "T1" "welcome" (initialState "T0")).2)).2)).2

/-- A fresh start followed by one add whose generated 8-hex-char token is
`aabbccdd` (a value `uuid.uuid4().hex[:8]` can produce). -/
def collisionBase : StoreState :=
  (addTask "aabbccdd" "T1" "task one" (initialState "T0")).2

/-- A well-formed state file whose `tasks` array is empty (as produced
after removing every task) but which carries a completed count, a log
entry and a last-completed timestamp. -/
def emptyTasksFile : List (String × JVal) :=
  [("tasks", .jlist []), ("completedCount", .jint 7),
   ("lastCompletedAt", .jstr "T9"),
   ("completedTasks", .jlist [.jdict [("id", .jstr "a"), ("title", .jstr "milk"),
                                      ("completed_at", .jstr "T8")]])]

theorem taskOfJ_taskToJ (now : String) (t : TodoTask) : taskOfJ now (taskToJ t) = some t :=
  rfl

theorem filterMap_taskToJ (now : String) (l : List (String × TodoTask)) :
    (l.map (fun p => taskToJ p.2)).filterMap (taskOfJ now) = l.map Prod.snd := by
  induction l with
  | nil => rfl
  | cons a l ih =>
    simp only [List.map_cons, List.filterMap_cons, taskOfJ_taskToJ, ih]

theorem filterMap_keepEntry (l : List (List (String × JVal)))
    (h : ∀ e ∈ l, hasKey e "title" = true ∧ hasKey e "completed_at" = true) :
    (l.map JVal.jdict).filterMap keepEntry = l := by
  induction l with
  | nil => rfl
  | cons e l ih =>
    have he := h e (List.mem_cons_self e l)
    simp only [List.map_cons, List.filterMap_cons, keepEntry, he.1, he.2,
      Bool.and_self, if_pos]
    exact congrArg (e :: ·) (ih fun e' he' => h e' (List.mem_cons_of_mem e he'))

theorem lastN_length_le (n : Nat) (xs : List α) : (lastN n xs).length ≤ n := by
  simp only [lastN, List.length_drop]
  omega

theorem lastN_of_length_le {n : Nat} {xs : List α} (h : xs.length ≤ n) : lastN n xs = xs := by
  simp [lastN, Nat.sub_eq_zero_of_le h]

theorem mem_of_mem_lastN {n : Nat} {xs : List α} {a : α} (h : a ∈ lastN n xs) : a ∈ xs :=
  List.drop_subset _ xs h

theorem lastN_append_singleton (n : Nat) (hn : 0 < n) (xs : List α) (a : α) :
    ∃ ys, lastN n (xs ++ [a]) = ys ++ [a] := by
  refine ⟨xs.drop ((xs ++ [a]).length - n), ?_⟩
  unfold lastN
  rw [List.drop_append_of_le_length]
  simp only [List.length_append, List.length_cons, List.length_nil]
  omega

theorem ordInsert_of_not_mem (m : List (String × TodoTask)) (k : String) (v : TodoTask)
    (h : ∀ p ∈ m, p.1 ≠ k) : ordInsert m k v = m ++ [(k, v)] := by
  have hc : m.any (fun p => p.1 == k) = false := by
    rw [List.any_eq_false]
    intro p hp
    simpa using h p hp
  simp [ordInsert, hc]

theorem mem_ordInsert {m : List (String × TodoTask)} {k : String} {v : TodoTask}
    {p : String × TodoTask} (hp : p ∈ ordInsert m k v) : p ∈ m ∨ p = (k, v) := by
  unfold ordInsert at hp
  by_cases h : m.any (fun q => q.1 == k) = true
  · rw [if_pos h] at hp
    rcases List.mem_map.mp hp with ⟨q, hq, hqe⟩
    by_cases hqk : (q.1 == k) = true
    · rw [if_pos hqk] at hqe
      exact Or.inr hqe.symm
    · rw [if_neg hqk] at hqe
      exact Or.inl (hqe ▸ hq)
  · rw [if_neg h] at hp
    rcases List.mem_append.mp hp with h' | h'
    · exact Or.inl h'
    · exact Or.inr (List.mem_singleton.mp h')

theorem keys_ordInsert_of_mem {m : List (String × TodoTask)} {k : String} (v : TodoTask)
    (h : m.any (fun q => q.1 == k) = true) :
    (ordInsert m k v).map Prod.fst = m.map Prod.fst := by
  unfold ordInsert
  rw [if_pos h, List.map_map]
  refine List.map_congr_left fun q _ => ?_
  by_cases hqk : (q.1 == k) = true
  · simp only [Function.comp_apply, if_pos hqk]
    exact (beq_iff_eq.mp hqk).symm
  · simp only [Function.comp_apply, if_neg hqk]

theorem keys_ordInsert_of_not_mem {m : List (String × TodoTask)} {k : String} (v : TodoTask)
    (h : m.any (fun q => q.1 == k) = false) :
    (ordInsert m k v).map Prod.fst = m.map Prod.fst ++ [k] := by
  unfold ordInsert
  rw [if_neg (by simp [h]), List.map_append]
  rfl

theorem nodup_keys_ordInsert {m : List (String × TodoTask)} {k : String} {v : TodoTask}
    (h : (m.map Prod.fst).Nodup) : ((ordInsert m k v).map Prod.fst).Nodup := by
  by_cases hm : m.any (fun q => q.1 == k) = true
  · rw [keys_ordInsert_of_mem v hm]
    exact h
  · have hm' : m.any (fun q => q.1 == k) = false := by
      cases hb : m.any (fun q => q.1 == k) with
      | false => rfl
      | true => exact absurd hb hm
    rw [keys_ordInsert_of_not_mem v hm']
    rw [List.nodup_append]
    refine ⟨h, List.nodup_singleton k, ?_⟩
    intro x hx hk
    rw [List.mem_singleton] at hk
    subst hk
    rcases List.mem_map.mp hx with ⟨q, hq, hqk⟩
    exact hm (by rw [List.any_eq_true]; exact ⟨q, hq, by simp [hqk]⟩)

theorem foldl_ordInsert_eq_append (ts : List TodoTask) (acc : List (String × TodoTask))
    (hdisj : ∀ t ∈ ts, ∀ p ∈ acc, p.1 ≠ t.id)
    (hnd : (ts.map TodoTask.id).Nodup) :
    ts.foldl (fun m t => ordInsert m t.id t) acc = acc ++ ts.map (fun t => (t.id, t)) := by
  induction ts generalizing acc with
  | nil => simp
  | cons t ts ih =>
    rw [List.foldl_cons,
      ordInsert_of_not_mem acc t.id t (fun p hp => hdisj t (List.mem_cons_self t ts) p hp)]
    rw [List.map_cons] at hnd
    have hnd' := List.nodup_cons.mp hnd
    rw [ih (acc ++ [(t.id, t)]) ?_ hnd'.2]
    · simp
    · intro u hu p hp
      rcases List.mem_append.mp hp with h' | h'
      · exact hdisj u (List.mem_cons_of_mem t hu) p h'
      · rw [List.mem_singleton.mp h']
        intro hcontra
        refine hnd'.1 ?_
        rw [show t.id = u.id from hcontra]
        exact List.mem_map_of_mem TodoTask.id hu

theorem map_id_pair (l : List (String × TodoTask)) (hid : ∀ p ∈ l, p.1 = p.2.id) :
    l.map (fun p => (p.2.id, p.2)) = l := by
  induction l with
  | nil => rfl
  | cons p l ih =>
    simp only [List.map_cons]
    rw [← hid p (List.mem_cons_self p l)]
    exact congrArg (p :: ·) (ih fun q hq => hid q (List.mem_cons_of_mem p hq))

theorem ordFromTasks_map_snd (l : List (String × TodoTask))
    (hid : ∀ p ∈ l, p.1 = p.2.id) (hnd : (l.map Prod.fst).Nodup) :
    ordFromTasks (l.map Prod.snd) = l := by
  have hkeys : l.map (TodoTask.id ∘ Prod.snd) = l.map Prod.fst :=
    List.map_congr_left fun p hp => (hid p hp).symm
  unfold ordFromTasks
  rw [foldl_ordInsert_eq_append _ _ (by simp) (by rw [List.map_map, hkeys]; exact hnd)]
  rw [List.nil_append, List.map_map]
  exact map_id_pair l hid

theorem isEmpty_map (f : α → β) (l : List α) : (l.map f).isEmpty = l.isEmpty := by
  cases l <;> rfl

theorem pyIntOr0_jint (n : Int) : pyIntOr0 (some (.jint n)) = .ok n := by
  by_cases h : n = 0
  · subst h
    rfl
  · have ht : pyTruthy (.jint n) = true := by simp [pyTruthy, h]
    simp [pyIntOr0, ht, pyInt]

theorem loadTasks_serialize (now : String) (s : StoreState) :
    loadTasks now (serializeState s) = s.tasks.map Prod.snd := by
  show (s.tasks.map (fun p => taskToJ p.2)).filterMap (taskOfJ now) = _
  exact filterMap_taskToJ now s.tasks

theorem loadLog_serialize (s : StoreState) (hlen : s.completed_log.length ≤ 50)
    (hkeys : ∀ e ∈ s.completed_log,
      hasKey e "title" = true ∧ hasKey e "completed_at" = true) :
    loadLog (serializeState s) = s.completed_log := by
  show lastN 50 ((s.completed_log.map JVal.jdict).filterMap keepEntry) = _
  rw [filterMap_keepEntry _ hkeys, lastN_of_length_le hlen]

theorem loadLast_serialize (s : StoreState) (hlast : s.last_completed_at ≠ some "") :
    loadLast (serializeState s) = s.last_completed_at := by
  unfold loadLast
  rw [show dictGet (serializeState s) "lastCompletedAt" =
      some (match s.last_completed_at with
            | some x => JVal.jstr x | none => JVal.jnull) from rfl]
  rcases hx : s.last_completed_at with _ | x
  · rfl
  · have hxne : x ≠ "" := fun h => hlast (by rw [hx, h])
    simp [pyTruthy, pyStr, hxne]

theorem loadState_unfold (now : String) (raw : List (String × JVal)) :
    loadState now raw =
      match pyIntOr0 (dictGet raw "completedCount") with
      | Except.error e => Except.error e
      | Except.ok c =>
        Except.ok (StoreState.mk
          (if (loadTasks now raw).isEmpty then ordFromTasks (initialTasks now)
           else ordFromTasks (loadTasks now raw))
          c (loadLog raw) (loadLast raw)) :=
  rfl

theorem loadState_serializeState (s : StoreState) (now : String) (hwf : WF s) :
    loadState now (serializeState s) =
      .ok (if s.tasks.isEmpty then { s with tasks := ordFromTasks (initialTasks now) }
           else s) := by
  obtain ⟨hid, hnd, hlen, hkeys, hlast⟩ := hwf
  rw [loadState_unfold]
  rw [show dictGet (serializeState s) "completedCount" =
      some (.jint s.completed_total) from rfl]
  rw [pyIntOr0_jint, loadTasks_serialize, loadLog_serialize s hlen hkeys,
    loadLast_serialize s hlast, isEmpty_map]
  by_cases he : s.tasks.isEmpty = true
  · rw [if_pos he, if_pos he]
  · rw [if_neg he, if_neg he, ordFromTasks_map_snd s.tasks (fun p hp => (hid p hp).1) hnd]

theorem removeTask_notfound (now tid : String) (s : StoreState)
    (hf : s.tasks.find? (fun p => p.1 == tid) = none) :
    removeTask now tid s = (none, s) := by
  unfold removeTask
  rw [hf]

theorem removeTask_found (now tid : String) (s : StoreState) (e : String × TodoTask)
    (hf : s.tasks.find? (fun p => p.1 == tid) = some e) :
    removeTask now tid s = (some e.2,
      { tasks := s.tasks.eraseP (fun p => p.1 == tid),
        completed_total := s.completed_total + 1,
        completed_log := if (s.completed_log ++ [mkRecord e.2 now]).length > 50
          then lastN 50 (s.completed_log ++ [mkRecord e.2 now])
          else s.completed_log ++ [mkRecord e.2 now],
        last_completed_at := some now }) := by
  unfold removeTask
  rw [hf]

theorem initMap_eq (now : String) : ordFromTasks (initialTasks now) =
    [("welcome", ⟨"welcome", "Welcome to your orange todo list", now, false⟩),
     ("explore", ⟨"explore", "Add a new task with the add task tool", now, false⟩),
     ("clean-up", ⟨"clean-up", "Remove a task using the remove task tool", now, false⟩)] :=
  rfl

theorem initMap_id_nodup (now : String) :
    (∀ p ∈ ordFromTasks (initialTasks now), p.1 = p.2.id ∧ p.2.done = false) ∧
    ((ordFromTasks (initialTasks now)).map Prod.fst).Nodup := by
  constructor
  · intro p hp
    rw [initMap_eq] at hp
    simp only [List.mem_cons, List.not_mem_nil, or_false] at hp
    rcases hp with rfl | rfl | rfl <;> exact ⟨rfl, rfl⟩
  · show (["welcome", "explore", "clean-up"] : List String).Nodup
    decide

theorem wf_initialState (now : String) : WF (initialState now) := by
  refine ⟨(initMap_id_nodup now).1, (initMap_id_nodup now).2, ?_, ?_, ?_⟩
  · show (0 : Nat) ≤ 50
    omega
  · intro e he
    exact absurd he (List.not_mem_nil e)
  · intro h
    exact Option.noConfusion h

theorem wf_addTask (genId now title : String) {s : StoreState} (h : WF s) :
    WF (addTask genId now title s).2 := by
  obtain ⟨hid, hnd, hlen, hkeys, hlast⟩ := h
  refine ⟨?_, ?_, hlen, hkeys, hlast⟩
  · intro p hp
    rcases mem_ordInsert hp with h' | h'
    · exact hid p h'
    · rw [h']
      exact ⟨rfl, rfl⟩
  · exact nodup_keys_ordInsert hnd

theorem wf_removeTask (tid now : String) (hne : now ≠ "") {s : StoreState} (h : WF s) :
    WF (removeTask now tid s).2 := by
  obtain ⟨hid, hnd, hlen, hkeys, hlast⟩ := h
  cases hf : s.tasks.find? (fun p => p.1 == tid) with
  | none =>
    rw [removeTask_notfound now tid s hf]
    exact ⟨hid, hnd, hlen, hkeys, hlast⟩
  | some e =>
    rw [removeTask_found now tid s e hf]
    have hlog1 : ∀ x ∈ s.completed_log ++ [mkRecord e.2 now],
        hasKey x "title" = true ∧ hasKey x "completed_at" = true := by
      intro x hx
      rcases List.mem_append.mp hx with h' | h'
      · exact hkeys x h'
      · rw [List.mem_singleton.mp h']
        exact ⟨rfl, rfl⟩
    refine ⟨?_, ?_, ?_, ?_, ?_⟩
    · intro p hp
      exact hid p ((List.eraseP_sublist s.tasks).subset hp)
    · exact List.Nodup.sublist (List.Sublist.map Prod.fst (List.eraseP_sublist s.tasks)) hnd
    · by_cases hl : (s.completed_log ++ [mkRecord e.2 now]).length > 50
      · rw [if_pos hl]
        exact lastN_length_le 50 _
      · rw [if_neg hl]
        exact Nat.le_of_not_lt hl
    · intro x hx
      by_cases hl : (s.completed_log ++ [mkRecord e.2 now]).length > 50
      · rw [if_pos hl] at hx
        exact hlog1 x (mem_of_mem_lastN hx)
      · rw [if_neg hl] at hx
        exact hlog1 x hx
    · intro hc
      exact hne (Option.some.inj hc)

theorem reachable_wf {s : StoreState} (h : Reachable s) : WF s := by
  induction h with
  | init now => exact wf_initialState now
  | add genId now title _ ih => exact wf_addTask genId now title ih
  | remove tid now hne _ ih => exact wf_removeTask tid now hne ih
  | reload now _ hload ih =>
    rename_i spre spost hr
    rw [loadState_serializeState _ now ih] at hload
    injection hload with h'
    rw [← h']
    by_cases he : spre.tasks.isEmpty = true
    · rw [if_pos he]
      obtain ⟨_, _, hlen, hkeys, hlast⟩ := ih
      exact ⟨(initMap_id_nodup now).1, (initMap_id_nodup now).2, hlen, hkeys, hlast⟩
    · rw [if_neg he]
      exact ih

theorem loadLog_length_le (raw : List (String × JVal)) : (loadLog raw).length ≤ 50 := by
  unfold loadLog
  rcases hv : dictGet raw "completedTasks" with _ | v
  · exact Nat.zero_le 50
  · cases v with
    | jlist items => exact lastN_length_le 50 _
    | jnull => exact Nat.zero_le 50
    | jbool b => exact Nat.zero_le 50
    | jint n => exact Nat.zero_le 50
    | jstr s => exact Nat.zero_le 50
    | jdict d => exact Nat.zero_le 50

theorem removeTask_log_le (s : StoreState) (tid now : String)
    (h : s.completed_log.length ≤ 50) :
    ((removeTask now tid s).2).completed_log.length ≤ 50 := by
  cases hf : s.tasks.find? (fun p => p.1 == tid) with
  | none =>
    rw [removeTask_notfound now tid s hf]
    exact h
  | some e =>
    rw [removeTask_found now tid s e hf]
    by_cases hl : (s.completed_log ++ [mkRecord e.2 now]).length > 50
    · rw [if_pos hl]
      exact lastN_length_le 50 _
    · rw [if_neg hl]
      exact Nat.le_of_not_lt hl

theorem find?_pred {α : Type} (p : α → Bool) (l : List α) (a : α)
    (h : l.find? p = some a) : p a = true :=
  List.find?_some h

theorem emptiedState_reachable : Reachable emptiedState := by
  have h0 : Reachable (initialState "T0") := Reachable.init "T0"
  have h1 := Reachable.remove "welcome" "T1" (by decide) h0
  have h2 := Reachable.remove "explore" "T2" (by decide) h1
  exact Reachable.remove "clean-up" "T3" (by decide) h2

/-- C1: for every store state (hence after any sequence of add/remove
operations), the stats built by `_stats_unlocked` satisfy
`total = active + completed`, where `active` is the size of the ordered
task map and `completed` is the completed-count; this is the stats object
embedded under the `stats` key of every snapshot. -/
theorem stats_total_eq_active_plus_completed (s : StoreState) :
    (statsOf s).total = ((statsOf s).active : Int) + (statsOf s).completed ∧
    (statsOf s).active = s.tasks.length ∧
    (statsOf s).completed = s.completed_total ∧
    dictGet (snapshotJ s) "stats" = some (statsToJ (statsOf s)) :=
  ⟨rfl, rfl, rfl, rfl⟩

/-- C2: contrary to the claim, `AssetRegistry.refresh` can raise.  When
the remote fetch succeeds with a JSON object that has no CSS/JS
entrypoints, `_derive_asset_paths` raises `ValueError` outside any
try/except and the exception propagates to the caller (first conjunct);
a non-string entrypoint likewise raises `AttributeError` (second
conjunct).  The fallback chain does work when the fetch itself fails:
with the same good local manifest the local fallback is returned (third
conjunct), and when both fail the cached placeholder is returned (fourth
conjunct). -/
theorem refresh_raises_on_bad_remote_manifest :
    refresh true "http://cdn" (some [("entrypoints", JVal.jlist [])])
        (.ok [("entrypoints", JVal.jlist [JVal.jstr "/static/css/main.a1.css",
                                          JVal.jstr "/static/js/main.b2.js"])])
        placeholderWidget = .error PyExc.valueError ∧
    refresh true "http://cdn"
        (some [("entrypoints", JVal.jlist [JVal.jstr "x.css", JVal.jint 5,
                                           JVal.jstr "y.js"])])
        (.ok [("entrypoints", JVal.jlist [JVal.jstr "/static/css/main.a1.css",
                                          JVal.jstr "/static/js/main.b2.js"])])
        placeholderWidget = .error PyExc.attributeError ∧
    refresh true "http://cdn" none
        (.ok [("entrypoints", JVal.jlist [JVal.jstr "/static/css/main.a1.css",
                                          JVal.jstr "/static/js/main.b2.js"])])
        placeholderWidget
      = .ok (buildSnapshot "http://cdn"
          { css_rel := "static/css/main.a1.css", js_rel := "static/js/main.b2.js",
            version := "b2" }) ∧
    refresh true "http://cdn" none (.error PyExc.fileNotFoundError) placeholderWidget
      = .ok placeholderWidget :=
  ⟨rfl, rfl, rfl, rfl⟩

/-- C3 (amended): serializing any lifecycle-reachable state with a
non-empty active map and loading it back reproduces the state exactly:
active tasks (ids, titles, order), completed count, completion log and
last-completed timestamp. -/
theorem roundtrip_reachable_nonempty (s : StoreState) (now : String) (hr : Reachable s)
    (hne : s.tasks ≠ []) : loadState now (serializeState s) = .ok s := by
  have he : s.tasks.isEmpty = false := by
    cases hts : s.tasks with
    | nil => exact absurd hts hne
    | cons a l => rfl
  rw [loadState_serializeState s now (reachable_wf hr), if_neg (by simp [he])]

/-- C3 witness: the fresh seeded state round-trips through the durable
JSON form. -/
theorem roundtrip_reachable_nonempty_witness :
    (initialState "T0").tasks ≠ [] ∧
    loadState "T1" (serializeState (initialState "T0")) = .ok (initialState "T0") :=
  ⟨by decide, roundtrip_reachable_nonempty (initialState "T0") "T1"
    (Reachable.init "T0") (by decide)⟩

/-- C3 counterexample: the claim fails as stated.  The state reached by
removing all three seeded tasks is reachable and has an empty active
map, but reloading its serialization yields the three seeded default
tasks instead of the empty set (`_load_state` seeds defaults whenever no
valid task entry is found). -/
theorem roundtrip_fails_on_emptied_store :
    Reachable emptiedState ∧ emptiedState.tasks.length = 0 ∧
    (loadState "T4" (serializeState emptiedState)).toOption.map
      (fun st => st.tasks.length) = some 3 :=
  ⟨emptiedState_reachable, rfl, rfl⟩

/-- C4: a title argument that is empty or whitespace-only after trimming
makes the add-task branch return the error result with text
`Please provide a task title.` and no structured content, leaving the
store state untouched. -/
theorem add_blank_title_rejected (genId now : String) (titleArg : Option String)
    (s : StoreState) (h : pyStrip (titleArg.getD "") = "") :
    addToolCall genId now titleArg s =
      ({ text := "Please provide a task title.", isError := true, structured := none },
       s) := by
  simp [addToolCall, h]

/-- C4 witness: a whitespace-only title is rejected on the fresh store. -/
theorem add_blank_title_rejected_witness :
    addToolCall "aabbccdd" "T1" (some "   ") (initialState "T0") =
      ({ text := "Please provide a task title.", isError := true, structured := none },
       initialState "T0") :=
  add_blank_title_rejected "aabbccdd" "T1" (some "   ") (initialState "T0") rfl

/-- C5: removing an id absent from the active map returns the `none`
sentinel with the whole state unchanged, and the dispatcher then returns
the not-found error result carrying the current snapshot. -/
theorem remove_missing_id_noop (s : StoreState) (tid now : String)
    (hfind : s.tasks.find? (fun p => p.1 == tid) = none) :
    removeTask now tid s = (none, s) ∧
    (pyStrip tid = tid → tid ≠ "" →
      removeToolCall now (some tid) s =
        ({ text := "No task with id “" ++ tid ++ "” was found.", isError := true,
           structured := some (snapshotJ s) }, s)) := by
  refine ⟨removeTask_notfound now tid s hfind, fun hstrip hne => ?_⟩
  simp only [removeToolCall, Option.getD, hstrip]
  rw [if_neg (by simp [hne])]
  rw [removeTask_notfound now tid s hfind]

/-- C5 witness: removing the unknown id `zzz` from the fresh store. -/
theorem remove_missing_id_noop_witness :
    removeTask "T1" "zzz" (initialState "T0") = (none, initialState "T0") ∧
    removeToolCall "T1" (some "zzz") (initialState "T0") =
      ({ text := "No task with id “zzz” was found.", isError := true,
         structured := some (snapshotJ (initialState "T0")) }, initialState "T0") := by
  have h := remove_missing_id_noop (initialState "T0") "zzz" "T1" rfl
  exact ⟨h.1, h.2 rfl (by decide)⟩

/-- C6: removing an id present in the active map returns exactly that
task, evicts its entry (active count drops by one), increments the
completed count by one, sets the last-completed timestamp, and appends a
completion record carrying the removed task's id and title as the last
log entry. -/
theorem remove_existing_updates_state (s : StoreState) (tid now : String)
    (e : String × TodoTask)
    (hfind : s.tasks.find? (fun p => p.1 == tid) = some e) :
    (removeTask now tid s).1 = some e.2 ∧
    (removeTask now tid s).2.tasks = s.tasks.eraseP (fun p => p.1 == tid) ∧
    (removeTask now tid s).2.tasks.length + 1 = s.tasks.length ∧
    (removeTask now tid s).2.completed_total = s.completed_total + 1 ∧
    (removeTask now tid s).2.last_completed_at = some now ∧
    dictGet (mkRecord e.2 now) "id" = some (.jstr e.2.id) ∧
    dictGet (mkRecord e.2 now) "title" = some (.jstr e.2.title) ∧
    ∃ ys, (removeTask now tid s).2.completed_log = ys ++ [mkRecord e.2 now] := by
  have hmem : e ∈ s.tasks := List.mem_of_find?_eq_some hfind
  have hpe := find?_pred (fun q : String × TodoTask => q.1 == tid) s.tasks e hfind
  rw [removeTask_found now tid s e hfind]
  refine ⟨rfl, rfl, ?_, rfl, rfl, rfl, rfl, ?_⟩
  · exact List.length_eraseP_add_one hmem hpe
  · by_cases hl : (s.completed_log ++ [mkRecord e.2 now]).length > 50
    · rw [if_pos hl]
      exact lastN_append_singleton 50 (by omega) _ _
    · rw [if_neg hl]
      exact ⟨s.completed_log, rfl⟩

/-- C6 witness: removing the seeded task `welcome` from the fresh store. -/
theorem remove_existing_updates_state_witness :
    (removeTask "T1" "welcome" (initialState "T0")).1 =
      some ⟨"welcome", "Welcome to your orange todo list", "T0", false⟩ ∧
    (removeTask "T1" "welcome" (initialState "T0")).2.tasks.length + 1 =
      (initialState "T0").tasks.length ∧
    (removeTask "T1" "welcome" (initialState "T0")).2.completed_total =
      (initialState "T0").completed_total + 1 := by
  have h := remove_existing_updates_state (initialState "T0") "welcome" "T1"
    ("welcome", ⟨"welcome", "Welcome to your orange todo list", "T0", false⟩) rfl
  exact ⟨h.1, h.2.2.1, h.2.2.2.1⟩

/-- C7: the completion log is capped at 50 everywhere: every
lifecycle-reachable state has at most 50 entries; every state produced by
loading any state file has at most 50 entries; a removal keeps the log at
most 50 whenever it was; when a removal appends its record the resulting
log is exactly the most recent 50 of the extended log (oldest dropped
first); and adds never touch the log. -/
theorem completion_log_capped :
    (∀ s : StoreState, Reachable s → s.completed_log.length ≤ 50) ∧
    (∀ (now : String) (raw : List (String × JVal)) (st : StoreState),
      loadState now raw = .ok st → st.completed_log.length ≤ 50) ∧
    (∀ (s : StoreState) (tid now : String), s.completed_log.length ≤ 50 →
      ((removeTask now tid s).2).completed_log.length ≤ 50) ∧
    (∀ (s : StoreState) (tid now : String) (e : String × TodoTask),
      s.tasks.find? (fun p => p.1 == tid) = some e →
      ((removeTask now tid s).2).completed_log =
        lastN 50 (s.completed_log ++ [mkRecord e.2 now])) ∧
    (∀ (s : StoreState) (genId now title : String),
      ((addTask genId now title s).2).completed_log = s.completed_log) := by
  refine ⟨?_, ?_, ?_, ?_, ?_⟩
  · exact fun s hr => (reachable_wf hr).2.2.1
  · intro now raw st h
    rw [loadState_unfold] at h
    cases hcc : pyIntOr0 (dictGet raw "completedCount") with
    | error e =>
      rw [hcc] at h
      exact absurd h (by simp)
    | ok c =>
      rw [hcc] at h
      injection h with h'
      rw [← h']
      exact loadLog_length_le raw
  · exact removeTask_log_le
  · intro s tid now e hfind
    rw [removeTask_found now tid s e hfind]
    by_cases hl : (s.completed_log ++ [mkRecord e.2 now]).length > 50
    · rw [if_pos hl]
    · rw [if_neg hl]
      exact (lastN_of_length_le (Nat.le_of_not_lt hl)).symm
  · intro s genId now title
    rfl

/-- C7 witness: the cap holds on the fresh store, on a load of the empty
file, and through a concrete removal. -/
theorem completion_log_capped_witness :
    (initialState "T0").completed_log.length ≤ 50 ∧
    (initialState "T1").completed_log.length ≤ 50 ∧
    ((removeTask "T2" "welcome" (initialState "T0")).2).completed_log.length ≤ 50 ∧
    ((removeTask "T2" "welcome" (initialState "T0")).2).completed_log =
      lastN 50 ((initialState "T0").completed_log ++
        [mkRecord ⟨"welcome", "Welcome to your orange todo list", "T0", false⟩ "T2"]) := by
  refine ⟨completion_log_capped.1 _ (Reachable.init "T0"),
    completion_log_capped.2.1 "T1" [] (initialState "T1") rfl,
    completion_log_capped.2.2.1 (initialState "T0") "welcome" "T2" (by decide),
    completion_log_capped.2.2.2.1 (initialState "T0") "welcome" "T2"
      ("welcome", ⟨"welcome", "Welcome to your orange todo list", "T0", false⟩) rfl⟩

/-- C8 (amended): provided the generated id token differs from every
active task's id (the code does not check this; `uuid.uuid4().hex[:8]`
makes it merely probable), adding a non-empty trimmed title appends a new
task at the end of the ordered map, increases the active count by exactly
one, replaces nothing, leaves completion data untouched, and returns the
new task. -/
theorem add_fresh_appends (s : StoreState) (genId now title : String)
    (hfresh : ∀ p ∈ s.tasks, p.1 ≠ genId) (_htitle : pyStrip title ≠ "") :
    (addTask genId now title s).1 = ⟨genId, pyStrip title, now, false⟩ ∧
    (addTask genId now title s).2.tasks =
      s.tasks ++ [(genId, ⟨genId, pyStrip title, now, false⟩)] ∧
    (addTask genId now title s).2.tasks.length = s.tasks.length + 1 ∧
    (addTask genId now title s).2.completed_total = s.completed_total ∧
    (addTask genId now title s).2.completed_log = s.completed_log ∧
    (addTask genId now title s).2.last_completed_at = s.last_completed_at := by
  have happ := ordInsert_of_not_mem s.tasks genId ⟨genId, pyStrip title, now, false⟩ hfresh
  refine ⟨rfl, happ, ?_, rfl, rfl, rfl⟩
  rw [show (addTask genId now title s).2.tasks =
      ordInsert s.tasks genId ⟨genId, pyStrip title, now, false⟩ from rfl, happ]
  simp

/-- C8 witness: adding `task one` with the fresh token `aabbccdd` to the
seeded store grows the active count from 3 to 4. -/
theorem add_fresh_appends_witness :
    (addTask "aabbccdd" "T1" "task one" (initialState "T0")).2.tasks.length =
      (initialState "T0").tasks.length + 1 :=
  (add_fresh_appends (initialState "T0") "aabbccdd" "T1" "task one"
    (by decide) (by decide)).2.2.1

/-- C8 counterexample: the claim fails as stated.  When the generated
token collides with an existing active id (here a second add draws the
same token `aabbccdd`), the `OrderedDict` assignment replaces the
existing task in place: the active count does not increase, the returned
task's id equals an existing active id, and the previous task with that
id is overwritten (its title changes from `task one` to `task two`). -/
theorem add_collision_replaces :
    (addTask "aabbccdd" "T2" "task two" collisionBase).2.tasks.length =
      collisionBase.tasks.length ∧
    (addTask "aabbccdd" "T2" "task two" collisionBase).1.id ∈
      collisionBase.tasks.map Prod.fst ∧
    collisionBase.tasks.find? (fun p => p.1 == "aabbccdd") =
      some ("aabbccdd", ⟨"aabbccdd", "task one", "T1", false⟩) ∧
    (addTask "aabbccdd" "T2" "task two" collisionBase).2.tasks.find?
        (fun p => p.1 == "aabbccdd") =
      some ("aabbccdd", ⟨"aabbccdd", "task two", "T2", false⟩) :=
  ⟨rfl, by decide, rfl, rfl⟩

/-- C9: in every lifecycle-reachable store state — a fresh start, any
sequence of adds and removals, and restarts from the program's own
persisted state file — every active task has `done = false`. -/
theorem active_tasks_never_done (s : StoreState) (hr : Reachable s) :
    ∀ p ∈ s.tasks, p.2.done = false :=
  fun p hp => ((reachable_wf hr).1 p hp).2

/-- C9 witness: the seeded `welcome` task of the fresh store is active
and not done. -/
theorem active_tasks_never_done_witness :
    (("welcome", TodoTask.mk "welcome" "Welcome to your orange todo list" "T0" false)
      ∈ (initialState "T0").tasks) ∧
    (TodoTask.mk "welcome" "Welcome to your orange todo list" "T0" false).done = false :=
  ⟨by decide, active_tasks_never_done (initialState "T0") (Reachable.init "T0")
    ("welcome", TodoTask.mk "welcome" "Welcome to your orange todo list" "T0" false)
    (by decide)⟩

/-- C10: when a parsed state file yields zero valid task entries (for
example an empty `tasks` array), loading seeds the three default tasks
while still restoring the persisted completed count, completion log and
last-completed timestamp. -/
theorem load_no_valid_tasks_seeds_defaults (now : String) (raw : List (String × JVal))
    (c : Int) (htasks : loadTasks now raw = [])
    (hcc : pyIntOr0 (dictGet raw "completedCount") = .ok c) :
    loadState now raw = .ok (StoreState.mk (ordFromTasks (initialTasks now))
      c (loadLog raw) (loadLast raw)) := by
  rw [loadState_unfold, hcc, htasks]
  rfl

/-- C10 witness: a file with an empty tasks array, completed count 7, one
log entry and a last-completed timestamp loads as the three seeded
defaults with count 7, that log entry and that timestamp. -/
theorem load_no_valid_tasks_seeds_defaults_witness :
    loadState "N0" emptyTasksFile = .ok (StoreState.mk
      (ordFromTasks (initialTasks "N0")) 7
      [[("id", .jstr "a"), ("title", .jstr "milk"), ("completed_at", .jstr "T8")]]
      (some "T9")) := by
  have h := load_no_valid_tasks_seeds_defaults "N0" emptyTasksFile 7 rfl rfl
  exact h

end OrangeTodo
